import Mathlib

/-!
Shallow embedding of darktable's `src/common/gpx.c`: the GPX XML event
interpreter (`_gpx_parser_start_element`, `_gpx_parser_end_element`,
`_gpx_parser_text`), the parse entry point `dt_gpx_new`, and the
timestamp-to-location resolver `dt_gpx_get_location`.

Modelling choices, all taken from the C source:
* C `gdouble` values are modelled as `GDouble`: either NaN or a rational
  value.  The only floating-point fact the code depends on is IEEE-754
  comparison semantics of NaN (`x == NAN` is false for every `x`,
  including NaN itself), captured by `GDouble.ceq`.
* glib's `GTimeVal` is a pair of integers (`tv_sec`, `tv_usec`).
* The external collaborators `g_ascii_strtod` and
  `g_time_val_from_iso8601` (glib, outside this repository) are
  parameters of the development, bundled in a `Glib` structure; every
  theorem is proved for an arbitrary instance.
* The GLib markup parser is modelled as a source of events
  (start-element with attributes, end-element, text); the three
  callbacks become state transformers over `DtGpx` and a whole parse is
  a left fold.  The callbacks in the C source never set their `GError`
  out-parameter, so the transformers are total.
* `GList` data pointers may be NULL, so the track list holds
  `Option TrackPoint`; appending `current_track_point` when it is NULL
  appends `none`, exactly as `g_list_append(list, NULL)` does.
-/

/-- Model of a C `gdouble`: NaN or a (rational) numeric value. -/
inductive GDouble
  | nan
  | val (q : ℚ)
deriving DecidableEq, Repr

/-- C `==` on doubles: NaN compares unequal to everything, itself included. -/
def GDouble.ceq : GDouble → GDouble → Bool
  | .val a, .val b => a == b
  | _, _ => false

/-- glib `GTimeVal`: seconds and microseconds. -/
structure GTimeVal where
  tvSec : Int
  tvUsec : Int
deriving DecidableEq, Repr

/-- `_gpx_track_point_t`: longitude, latitude, elevation, time. -/
structure TrackPoint where
  longitude : GDouble
  latitude : GDouble
  elevation : GDouble
  time : GTimeVal
deriving DecidableEq, Repr

/-- `dt_gpx_t`: the parser context / track store.
`track` holds the `GList` of `_gpx_track_point_t*` pointers (a data
pointer may be NULL, hence `Option`); `current_track_point` is the
in-progress point pointer; `current_parser_element` the bit-flag
classification; `invalid_track_point` the validity flag. -/
structure DtGpx where
  track : List (Option TrackPoint)
  current_track_point : Option TrackPoint
  current_parser_element : Nat
  invalid_track_point : Bool
deriving DecidableEq, Repr

def GPX_PARSER_ELEMENT_TRKPT : Nat := 1
def GPX_PARSER_ELEMENT_TIME : Nat := 2
def GPX_PARSER_ELEMENT_ELE : Nat := 4

/-- The external glib text-conversion collaborators.
`strtod` models `g_ascii_strtod` (never signals failure: unparsable
text yields some value, 0 in reality); `timeValFromIso8601` models
`g_time_val_from_iso8601`, returning `none` exactly when the C function
returns FALSE. -/
structure Glib where
  strtod : String → GDouble
  timeValFromIso8601 : String → Option GTimeVal

/-- One event from the XML event source (GMarkup callbacks). -/
inductive XmlEvent
  | startElement (name : String) (attrs : List (String × String))
  | endElement (name : String)
  | text (t : String)
deriving DecidableEq, Repr

/-- The `while (*attribute_name)` loop body of `_gpx_parser_start_element`:
scan the attribute list and record the last `lon` / `lat` values seen. -/
def scanAttributes (G : Glib) (attrs : List (String × String))
    (pt : TrackPoint) : TrackPoint :=
  attrs.foldl
    (fun pt nv =>
      if nv.1 = "lon" then { pt with longitude := G.strtod nv.2 }
      else if nv.1 = "lat" then { pt with latitude := G.strtod nv.2 }
      else pt)
    pt

/-- `_gpx_parser_start_element`.  On `trkpt`: a stale in-progress point is
freed (the pointer itself is not cleared in the source — its value is
retained), the invalid flag is reset, and when at least one attribute is
present a zero-initialised point with NaN lon/lat is built from the
attributes; the `longitude == NAN || latitude == NAN` validation uses C
double equality (`GDouble.ceq`), which is false for every operand, so it
never marks the point invalid — faithfully mirroring lines 214-219.
On `time` / `ele`: requires an in-progress point, else only logs. -/
def _gpx_parser_start_element (G : Glib) (gpx : DtGpx)
    (element_name : String) (attrs : List (String × String)) : DtGpx :=
  if element_name = "trkpt" then
    -- line 181-185: stale point freed, pointer retained; line 190: flag reset
    let gpx := { gpx with invalid_track_point := false }
    if attrs ≠ [] then
      -- g_malloc + memset 0, then longitude/latitude initialised to NAN
      let pt0 : TrackPoint :=
        { longitude := .nan, latitude := .nan, elevation := .val 0,
          time := ⟨0, 0⟩ }
      let pt := scanAttributes G attrs pt0
      -- lines 214-219: `pt.longitude == NAN || pt.latitude == NAN`
      let invalid := pt.longitude.ceq .nan || pt.latitude.ceq .nan
      { gpx with current_track_point := some pt,
                 invalid_track_point := invalid,
                 current_parser_element := GPX_PARSER_ELEMENT_TRKPT }
    else
      -- only the diagnostic is printed; the classification is still set
      { gpx with current_parser_element := GPX_PARSER_ELEMENT_TRKPT }
  else if element_name = "time" then
    if gpx.current_track_point = none then gpx  -- element_error: log only
    else { gpx with current_parser_element := GPX_PARSER_ELEMENT_TIME }
  else if element_name = "ele" then
    if gpx.current_track_point = none then gpx  -- element_error: log only
    else { gpx with current_parser_element := GPX_PARSER_ELEMENT_ELE }
  else gpx

/-- `_gpx_parser_end_element`: on `trkpt`, append `current_track_point`
(whatever pointer it holds, NULL included) unless the point is invalid,
then clear it; every end-element clears the classification. -/
def _gpx_parser_end_element (gpx : DtGpx) (element_name : String) : DtGpx :=
  let gpx :=
    if element_name = "trkpt" then
      if !gpx.invalid_track_point then
        { gpx with track := gpx.track ++ [gpx.current_track_point],
                   current_track_point := none }
      else
        { gpx with current_track_point := none }
    else gpx
  { gpx with current_parser_element := 0 }

/-- `_gpx_parser_text`: ignored without an in-progress point; under the
`time` classification an ISO-8601 parse failure marks the point invalid;
under the `ele` classification the elevation is assigned. -/
def _gpx_parser_text (G : Glib) (gpx : DtGpx) (t : String) : DtGpx :=
  match gpx.current_track_point with
  | none => gpx
  | some pt =>
    if gpx.current_parser_element = GPX_PARSER_ELEMENT_TIME then
      match G.timeValFromIso8601 t with
      | none => { gpx with invalid_track_point := true }
      | some tv => { gpx with current_track_point := some { pt with time := tv } }
    else if gpx.current_parser_element = GPX_PARSER_ELEMENT_ELE then
      { gpx with current_track_point := some { pt with elevation := G.strtod t } }
    else gpx

/-- Dispatch of one XML event to the matching callback of `_gpx_parser`. -/
def handleEvent (G : Glib) (gpx : DtGpx) : XmlEvent → DtGpx
  | .startElement n attrs => _gpx_parser_start_element G gpx n attrs
  | .endElement n => _gpx_parser_end_element gpx n
  | .text t => _gpx_parser_text G gpx t

/-- `g_markup_parse_context_parse` over an already tokenised document:
fold the callbacks over the event stream. -/
def runEvents (G : Glib) (evs : List XmlEvent) (gpx : DtGpx) : DtGpx :=
  evs.foldl (handleEvent G) gpx

/-- The zeroed `dt_gpx_t` produced by `g_malloc` + `memset` in `dt_gpx_new`. -/
def initGpx : DtGpx :=
  { track := [], current_track_point := none,
    current_parser_element := 0, invalid_track_point := false }

/-- `dt_gpx_new`.  The input models the file-mapping step: `none` when the
buffer cannot be obtained; otherwise the mapped content (already
tokenised — `Except.error` when the XML event source reports the
document is not well-formed) together with its byte size.  Sizes below
10 are rejected; the callbacks never set `GError`, so after those gates
the parse always yields a handle. -/
def dt_gpx_new (G : Glib)
    (mapped : Option (Except Unit (List XmlEvent) × Nat)) : Option DtGpx :=
  match mapped with
  | none => none
  | some (doc, size) =>
    if size < 10 then none
    else
      match doc with
      | .error _ => none
      | .ok evs => some (runEvents G evs initGpx)

/-- Outcome of the do-while scan in `dt_gpx_get_location`: which loop
branch returned, or fall-through past the end of the list. -/
inductive ScanResult
  | outOfRange (lon lat : GDouble)
  | inRange (lon lat : GDouble)
  | exhausted
deriving DecidableEq, Repr

/-- The do-while loop of `dt_gpx_get_location` (lines 137-163), dereferencing
each node's track point.  For a last node the first guard
`(!item->next && ts >= tp) || (ts <= tp)` always holds (proved below), so
the in-range check never dereferences a missing successor; that dead
branch is rendered as falling out of the loop. -/
def _gpx_locate_scan (ts : Int) : List TrackPoint → ScanResult
  | [] => .exhausted
  | tp :: rest =>
    if (rest = [] ∧ tp.time.tvSec ≤ ts) ∨ ts ≤ tp.time.tvSec then
      .outOfRange tp.longitude tp.latitude
    else
      match rest with
      | [] => .exhausted
      | next :: _ =>
        if tp.time.tvSec ≤ ts ∧ ts ≤ next.time.tvSec then
          .inRange tp.longitude tp.latitude
        else
          _gpx_locate_scan ts rest

/-- `dt_gpx_get_location`.  `lon` / `lat` are the values behind the caller's
out-pointers on entry; the result carries the returned boolean and the
values behind those pointers on exit (unchanged on the paths that never
write them: fewer than two points, or loop fall-through). -/
def dt_gpx_get_location (track : List TrackPoint) (timestamp : GTimeVal)
    (lon lat : GDouble) : Bool × GDouble × GDouble :=
  if track.length < 2 then (false, lon, lat)
  else
    match _gpx_locate_scan timestamp.tvSec track with
    | .outOfRange l a => (false, l, a)
    | .inRange l a => (true, l, a)
    | .exhausted => (false, lon, lat)

/-- A flat child element `<n>t</n>` as an event sequence. -/
def simpleChild (n t : String) : List XmlEvent :=
  [.startElement n [], .text t, .endElement n]

/-- Event sequence of a list of flat children. -/
def childEvents (children : List (String × String)) : List XmlEvent :=
  children.flatMap (fun c => simpleChild c.1 c.2)

/-- Event sequence of one `trkpt` element with the given attributes and
flat children. -/
def trkptElement (attrs children : List (String × String)) : List XmlEvent :=
  .startElement "trkpt" attrs :: (childEvents children ++ [.endElement "trkpt"])

/-- A concrete `Glib` instance for closed evaluations: `strtod` reads the
few literals used in witnesses, `timeValFromIso8601` accepts one
timestamp string. -/
def glibExample : Glib where
  strtod := fun s =>
    if s = "1.0" then .val 1 else if s = "2.0" then .val 2 else .val 0
  timeValFromIso8601 := fun s =>
    if s = "2011-06-05T12:30:00Z" then some ⟨1307277000, 0⟩ else none


/-- Equality of track points up to the sub-second (`tv_usec`) component of
the timestamp: coordinates, elevation and whole seconds agree. -/
def usecEquiv (p q : TrackPoint) : Prop :=
  p.longitude = q.longitude ∧ p.latitude = q.latitude ∧
  p.elevation = q.elevation ∧ p.time.tvSec = q.time.tvSec

/-! ## Helper lemmas -/

/-- C double comparison against NaN is false whatever the other operand
is, NaN itself included. -/
theorem GDouble.ceq_nan (x : GDouble) : x.ceq .nan = false := by
  cases x <;> rfl

/-- The do-while scan never falls off the end of a nonempty list: at the
last node the guard `(!item->next && ts >= tp) || (ts <= tp)` is a
tautology over totally ordered seconds. -/
theorem scan_ne_exhausted (l : List TrackPoint) (hl : l ≠ []) (ts : Int) :
    _gpx_locate_scan ts l ≠ .exhausted := by
  induction l with
  | nil => exact absurd rfl hl
  | cons tp rest ih =>
    match rest with
    | [] =>
      simp only [_gpx_locate_scan]
      split
      · exact fun h => ScanResult.noConfusion h
      · rename_i hguard
        refine absurd ?_ hguard
        rcases le_total tp.time.tvSec ts with h | h
        · exact Or.inl ⟨trivial, h⟩
        · exact Or.inr h
    | next :: rest' =>
      simp only [_gpx_locate_scan]
      split
      · exact fun h => ScanResult.noConfusion h
      · split
        · exact fun h => ScanResult.noConfusion h
        · exact ih (List.cons_ne_nil next rest')

/-- One-step unfolding of the scan on a node with a successor. -/
theorem scan_cons_cons (ts : Int) (tp next : TrackPoint) (rest : List TrackPoint) :
    _gpx_locate_scan ts (tp :: next :: rest) =
      if ts ≤ tp.time.tvSec then .outOfRange tp.longitude tp.latitude
      else if tp.time.tvSec ≤ ts ∧ ts ≤ next.time.tvSec then
        .inRange tp.longitude tp.latitude
      else _gpx_locate_scan ts (next :: rest) := by
  simp only [_gpx_locate_scan, List.cons_ne_nil, false_and, false_or]

/-- The scan reads only coordinates and whole seconds: stores related by
`usecEquiv` produce identical scan results. -/
theorem scan_respects_usecEquiv (ts : Int) :
    ∀ {s1 s2 : List TrackPoint}, List.Forall₂ usecEquiv s1 s2 →
      _gpx_locate_scan ts s1 = _gpx_locate_scan ts s2 := by
  intro s1 s2 h
  induction h with
  | nil => rfl
  | @cons a b l1 l2 hab htail ih =>
    obtain ⟨hlon, hlat, hele, hsec⟩ := hab
    cases htail with
    | nil => simp only [_gpx_locate_scan, hsec, hlon, hlat]
    | @cons n1 n2 t1 t2 hn ht =>
      rw [scan_cons_cons, scan_cons_cons, hsec, hlon, hlat, hn.2.2.2, ih]

/-- Folding the callbacks distributes over concatenation of event streams. -/
theorem runEvents_append (G : Glib) (a b : List XmlEvent) (s : DtGpx) :
    runEvents G (a ++ b) s = runEvents G b (runEvents G a s) := by
  simp [runEvents]

/-- Effect of one flat child element (not named `trkpt`) while a point is
in progress and no `time`/`ele` classification is pending: the store is
untouched, some point stays in progress, the classification is cleared,
and the invalid flag is raised exactly when the child is a `time` whose
text fails ISO-8601 parsing. -/
theorem runEvents_simpleChild (G : Glib) (s : DtGpx) (p : TrackPoint)
    (hc : s.current_track_point = some p)
    (h2 : s.current_parser_element ≠ 2)
    (h4 : s.current_parser_element ≠ 4)
    (n t : String) (hn : n ≠ "trkpt") :
    ∃ p' : TrackPoint,
      runEvents G (simpleChild n t) s =
        { track := s.track, current_track_point := some p',
          current_parser_element := 0,
          invalid_track_point := s.invalid_track_point ||
            (n == "time" && (G.timeValFromIso8601 t).isNone) } := by
  by_cases htime : n = "time"
  · subst htime
    cases hparse : G.timeValFromIso8601 t with
    | none =>
      refine ⟨p, ?_⟩
      simp [simpleChild, runEvents, handleEvent, _gpx_parser_start_element,
            _gpx_parser_text, _gpx_parser_end_element, hc, hparse,
            GPX_PARSER_ELEMENT_TRKPT, GPX_PARSER_ELEMENT_TIME, GPX_PARSER_ELEMENT_ELE]
    | some tv =>
      refine ⟨{ p with time := tv }, ?_⟩
      simp [simpleChild, runEvents, handleEvent, _gpx_parser_start_element,
            _gpx_parser_text, _gpx_parser_end_element, hc, hparse,
            GPX_PARSER_ELEMENT_TRKPT, GPX_PARSER_ELEMENT_TIME, GPX_PARSER_ELEMENT_ELE]
  · by_cases hele : n = "ele"
    · subst hele
      refine ⟨{ p with elevation := G.strtod t }, ?_⟩
      simp [simpleChild, runEvents, handleEvent, _gpx_parser_start_element,
            _gpx_parser_text, _gpx_parser_end_element, hc,
            GPX_PARSER_ELEMENT_TRKPT, GPX_PARSER_ELEMENT_TIME, GPX_PARSER_ELEMENT_ELE]
    · refine ⟨p, ?_⟩
      simp [simpleChild, runEvents, handleEvent, _gpx_parser_start_element,
            _gpx_parser_text, _gpx_parser_end_element, hc, hn, htime, hele, h2, h4,
            GPX_PARSER_ELEMENT_TRKPT, GPX_PARSER_ELEMENT_TIME, GPX_PARSER_ELEMENT_ELE]

/-- Effect of a list of flat children: store untouched, a point stays in
progress, and the invalid flag accumulates exactly the `time`-parse
failures among the children. -/
theorem runEvents_childEvents (G : Glib) (children : List (String × String)) :
    ∀ (s : DtGpx) (p : TrackPoint),
      s.current_track_point = some p →
      s.current_parser_element ≠ 2 →
      s.current_parser_element ≠ 4 →
      (∀ c ∈ children, c.1 ≠ "trkpt") →
      ∃ p' : TrackPoint,
        (runEvents G (childEvents children) s).track = s.track ∧
        (runEvents G (childEvents children) s).current_track_point = some p' ∧
        (runEvents G (childEvents children) s).current_parser_element ≠ 2 ∧
        (runEvents G (childEvents children) s).current_parser_element ≠ 4 ∧
        (runEvents G (childEvents children) s).invalid_track_point =
          (s.invalid_track_point ||
            children.any (fun c => c.1 == "time" && (G.timeValFromIso8601 c.2).isNone)) := by
  induction children with
  | nil =>
    intro s p hc h2 h4 _
    exact ⟨p, rfl, hc, h2, h4, by simp [childEvents, runEvents]⟩
  | cons c cs ih =>
    intro s p hc h2 h4 hnt
    obtain ⟨p1, hstep⟩ :=
      runEvents_simpleChild G s p hc h2 h4 c.1 c.2 (hnt c (List.mem_cons_self c cs))
    have happ : runEvents G (childEvents (c :: cs)) s
        = runEvents G (childEvents cs) (runEvents G (simpleChild c.1 c.2) s) := by
      rw [show childEvents (c :: cs) = simpleChild c.1 c.2 ++ childEvents cs from rfl]
      exact runEvents_append G _ _ s
    rw [hstep] at happ
    obtain ⟨p2, htr, hcur, h2', h4', hinv⟩ :=
      ih { track := s.track, current_track_point := some p1,
           current_parser_element := 0,
           invalid_track_point := s.invalid_track_point ||
             (c.1 == "time" && (G.timeValFromIso8601 c.2).isNone) }
        p1 rfl (by simp) (by simp)
        (fun d hd => hnt d (List.mem_cons_of_mem c hd))
    refine ⟨p2, ?_, ?_, ?_, ?_, ?_⟩
    · rw [happ, htr]
    · rw [happ, hcur]
    · rw [happ]; exact h2'
    · rw [happ]; exact h4'
    · rw [happ, hinv]
      simp [Bool.or_assoc]

/-- Closing `trkpt` while the invalid flag is set frees the point instead
of appending it. -/
theorem end_element_trkpt_invalid (st : DtGpx)
    (h : st.invalid_track_point = true) :
    _gpx_parser_end_element st "trkpt" =
      { st with current_track_point := none, current_parser_element := 0 } := by
  simp [_gpx_parser_end_element, h]

/-! ## Claims -/

/-- Claim C1.  The claim says a `trkpt` with at least one attribute but
missing `lon` or `lat` is marked invalid and never appears in the store.
The code contradicts it: the validation `longitude == NAN || latitude ==
NAN` compares against NaN with C `==`, which is always false, so the
point is never marked invalid and IS appended.  Evaluated at the failing
input `<trkpt lat="1.0"></trkpt>`: the invalid flag stays false and the
store receives one point whose longitude is NaN. -/
theorem c1_trkpt_missing_lon_is_appended :
    (runEvents glibExample (trkptElement [("lat", "1.0")] []) initGpx).track
      = [some ⟨.nan, .val 1, .val 0, ⟨0, 0⟩⟩] ∧
    (_gpx_parser_start_element glibExample initGpx "trkpt"
        [("lat", "1.0")]).invalid_track_point = false :=
  ⟨rfl, rfl⟩

/-- Claim C2, counterexample.  The claim says every point in the finished
store has a successfully parsed timestamp, so a `trkpt` with valid
lon/lat but no `time` child never appears.  Parsing
`<trkpt lon="1.0" lat="2.0"></trkpt>` refutes it: the point is appended
with the epoch-zero default timestamp. -/
theorem c2_counterexample_missing_time_point_in_store :
    (runEvents glibExample (trkptElement [("lon", "1.0"), ("lat", "2.0")] [])
        initGpx).track
      = [some ⟨.val 1, .val 2, .val 0, ⟨0, 0⟩⟩] ∧
    (runEvents glibExample (trkptElement [("lon", "1.0"), ("lat", "2.0")] [])
        initGpx).track ≠ [] := by
  refine ⟨rfl, ?_⟩
  decide

/-- Claim C2, amended.  A `trkpt` carrying `lon` and `lat` attributes but
no `time` child is appended to the store with the epoch-zero default
timestamp (its coordinates are the `strtod`-parsed attribute values,
elevation 0): for any prior parser state, processing such an element
extends the store by exactly that point. -/
theorem c2_amended_no_time_child_appends_epoch_zero (G : Glib) (s : DtGpx)
    (ls as : String) :
    (runEvents G (trkptElement [("lon", ls), ("lat", as)] []) s).track
      = s.track ++ [some ⟨G.strtod ls, G.strtod as, .val 0, ⟨0, 0⟩⟩] := by
  simp [trkptElement, childEvents, runEvents, handleEvent,
        _gpx_parser_start_element, _gpx_parser_end_element, scanAttributes,
        GDouble.ceq_nan]

/-- Claim C3.  The claim says a zero-attribute `trkpt` starts no point and
contributes nothing to the store, not even a null entry.  The code
contradicts it: no point is started, but at the matching end-element the
invalid flag (reset to false at the start-element) lets
`g_list_append(track, current_track_point)` run with the NULL pointer,
so a null entry is appended and the store length grows by one. -/
theorem c3_zero_attribute_trkpt_appends_null_entry :
    (runEvents glibExample (trkptElement [] []) initGpx).track = [none] ∧
    (runEvents glibExample (trkptElement [] []) initGpx).track.length = 1 :=
  ⟨rfl, rfl⟩

/-- Claim C4.  For a store of exactly two points with timestamps 100 and
200 at coordinates A and B (any elevations and sub-second fractions, any
initial values behind the out-pointers): locate(150) yields
(true, A.lon, A.lat); locate(100), locate(50) yield (false, A.lon,
A.lat); locate(250) yields (false, B.lon, B.lat) — the boolean is the
return value, the pair the values written through the out-pointers. -/
theorem c4_locate_two_point_store
    (lonA latA eleA lonB latB eleB : GDouble) (uA uB u1 u2 u3 u4 : Int)
    (lon0 lat0 : GDouble) :
    dt_gpx_get_location [⟨lonA, latA, eleA, ⟨100, uA⟩⟩, ⟨lonB, latB, eleB, ⟨200, uB⟩⟩]
        ⟨150, u1⟩ lon0 lat0 = (true, lonA, latA) ∧
    dt_gpx_get_location [⟨lonA, latA, eleA, ⟨100, uA⟩⟩, ⟨lonB, latB, eleB, ⟨200, uB⟩⟩]
        ⟨100, u2⟩ lon0 lat0 = (false, lonA, latA) ∧
    dt_gpx_get_location [⟨lonA, latA, eleA, ⟨100, uA⟩⟩, ⟨lonB, latB, eleB, ⟨200, uB⟩⟩]
        ⟨50, u3⟩ lon0 lat0 = (false, lonA, latA) ∧
    dt_gpx_get_location [⟨lonA, latA, eleA, ⟨100, uA⟩⟩, ⟨lonB, latB, eleB, ⟨200, uB⟩⟩]
        ⟨250, u4⟩ lon0 lat0 = (false, lonB, latB) := by
  refine ⟨?_, ?_, ?_, ?_⟩ <;>
    simp [dt_gpx_get_location, _gpx_locate_scan]

/-- Claim C5.  For every store with at least two points and every query
timestamp, the linear scan of `dt_gpx_get_location` returns from inside
the loop (out-of-range or in-range branch); the post-loop
`/* should not reach this point */` path — `ScanResult.exhausted` in the
model — is never taken. -/
theorem c5_scan_returns_inside_loop (track : List TrackPoint)
    (timestamp : GTimeVal) (h : 2 ≤ track.length) :
    _gpx_locate_scan timestamp.tvSec track ≠ .exhausted := by
  apply scan_ne_exhausted
  intro hnil
  rw [hnil] at h
  simp at h

/-- Witness for C5 at a concrete two-point store. -/
theorem c5_scan_returns_inside_loop_witness :
    2 ≤ ([⟨.val 1, .val 2, .val 0, ⟨100, 0⟩⟩,
          ⟨.val 3, .val 4, .val 0, ⟨200, 0⟩⟩] : List TrackPoint).length ∧
    _gpx_locate_scan (⟨150, 0⟩ : GTimeVal).tvSec
        [⟨.val 1, .val 2, .val 0, ⟨100, 0⟩⟩, ⟨.val 3, .val 4, .val 0, ⟨200, 0⟩⟩]
      ≠ .exhausted :=
  ⟨by decide,
   c5_scan_returns_inside_loop
     [⟨.val 1, .val 2, .val 0, ⟨100, 0⟩⟩, ⟨.val 3, .val 4, .val 0, ⟨200, 0⟩⟩]
     ⟨150, 0⟩ (by decide)⟩

/-- Claim C6.  On a store with fewer than two points, locate fails
(returns false) with no partial result: the values behind the longitude
and latitude out-pointers are returned unchanged. -/
theorem c6_insufficient_trackpoints_leaves_outputs_unchanged
    (track : List TrackPoint) (h : track.length < 2) (timestamp : GTimeVal)
    (lon lat : GDouble) :
    dt_gpx_get_location track timestamp lon lat = (false, lon, lat) := by
  unfold dt_gpx_get_location
  rw [if_pos h]

/-- Witness for C6 at the empty store. -/
theorem c6_insufficient_trackpoints_witness :
    ([] : List TrackPoint).length < 2 ∧
    dt_gpx_get_location [] ⟨0, 0⟩ (.val 7) (.val 8) = (false, .val 7, .val 8) :=
  ⟨by decide,
   c6_insufficient_trackpoints_leaves_outputs_unchanged [] (by decide) ⟨0, 0⟩
     (.val 7) (.val 8)⟩

/-- Claim C7.  Malformed-input conditions are absorbed by the callbacks
(which never set their `GError`), so for every obtainable buffer of
plausible size (≥ 10) whose XML is well-formed, `dt_gpx_new` returns a
handle — whatever events the document contains, malformed `trkpt`
elements included. -/
theorem c7_malformed_trkpts_never_fail_parse (G : Glib)
    (evs : List XmlEvent) (size : Nat) (h : 10 ≤ size) :
    ∃ gpx, dt_gpx_new G (some (Except.ok evs, size)) = some gpx := by
  refine ⟨runEvents G evs initGpx, ?_⟩
  simp only [dt_gpx_new]
  rw [if_neg (Nat.not_lt.mpr h)]

/-- Witness for C7 on a document made of two malformed trkpt elements. -/
theorem c7_malformed_trkpts_never_fail_parse_witness :
    10 ≤ 10 ∧
    ∃ gpx, dt_gpx_new glibExample
        (some (Except.ok (trkptElement [] [] ++ trkptElement [("lat", "1.0")] []), 10))
      = some gpx :=
  ⟨by decide,
   c7_malformed_trkpts_never_fail_parse glibExample
     (trkptElement [] [] ++ trkptElement [("lat", "1.0")] []) 10 (by decide)⟩

/-- Claim C8.  A `trkpt` (with at least one attribute, flat children none
of which are nested `trkpt`s) one of whose `time` children has text that
fails ISO-8601 parsing is marked invalid when the failure occurs and
discarded at its end-element: for any prior parser state the store is
unchanged — the point never appears — and no point remains in progress.
Since a whole parse is a fold over events, this covers every parsed
document containing such an element. -/
theorem c8_unparsable_time_trkpt_discarded (G : Glib) (s : DtGpx)
    (attrs children : List (String × String)) (ha : attrs ≠ [])
    (hnt : ∀ c ∈ children, c.1 ≠ "trkpt")
    (hbad : ∃ c ∈ children, c.1 = "time" ∧ G.timeValFromIso8601 c.2 = none) :
    (runEvents G (trkptElement attrs children) s).track = s.track ∧
    (runEvents G (trkptElement attrs children) s).current_track_point = none := by
  set s1 := _gpx_parser_start_element G s "trkpt" attrs with hs1def
  have hs1 : s1 =
      { track := s.track,
        current_track_point :=
          some (scanAttributes G attrs ⟨.nan, .nan, .val 0, ⟨0, 0⟩⟩),
        current_parser_element := 1, invalid_track_point := false } := by
    simp [hs1def, _gpx_parser_start_element, ha, GDouble.ceq_nan,
          GPX_PARSER_ELEMENT_TRKPT]
  have hsplit : runEvents G (trkptElement attrs children) s
      = _gpx_parser_end_element (runEvents G (childEvents children) s1) "trkpt" := by
    rw [show trkptElement attrs children
        = XmlEvent.startElement "trkpt" attrs ::
          (childEvents children ++ [XmlEvent.endElement "trkpt"]) from rfl]
    rw [show runEvents G (XmlEvent.startElement "trkpt" attrs ::
          (childEvents children ++ [XmlEvent.endElement "trkpt"])) s
        = runEvents G (childEvents children ++ [XmlEvent.endElement "trkpt"]) s1 from rfl]
    rw [runEvents_append]
    rfl
  obtain ⟨p2, htr, hcur, h2', h4', hinv⟩ :=
    runEvents_childEvents G children s1
      (scanAttributes G attrs ⟨.nan, .nan, .val 0, ⟨0, 0⟩⟩)
      (by rw [hs1]) (by rw [hs1]; simp) (by rw [hs1]; simp) hnt
  obtain ⟨c, hcmem, hcname, hcparse⟩ := hbad
  have hany : children.any
      (fun c => c.1 == "time" && (G.timeValFromIso8601 c.2).isNone) = true :=
    List.any_eq_true.mpr ⟨c, hcmem, by simp [hcname, hcparse]⟩
  have hinvtrue : (runEvents G (childEvents children) s1).invalid_track_point = true := by
    rw [hinv, hany, hs1]
    simp
  rw [hsplit, end_element_trkpt_invalid _ hinvtrue]
  refine ⟨?_, rfl⟩
  show (runEvents G (childEvents children) s1).track = s.track
  rw [htr, hs1]

/-- Witness for C8: `<trkpt lat="1.0"><time>bogus</time></trkpt>` is
discarded. -/
theorem c8_unparsable_time_trkpt_discarded_witness :
    ([("lat", "1.0")] : List (String × String)) ≠ [] ∧
    (∀ c ∈ ([("time", "bogus")] : List (String × String)), c.1 ≠ "trkpt") ∧
    (∃ c ∈ ([("time", "bogus")] : List (String × String)),
      c.1 = "time" ∧ glibExample.timeValFromIso8601 c.2 = none) ∧
    ((runEvents glibExample (trkptElement [("lat", "1.0")] [("time", "bogus")])
        initGpx).track = initGpx.track ∧
     (runEvents glibExample (trkptElement [("lat", "1.0")] [("time", "bogus")])
        initGpx).current_track_point = none) :=
  ⟨by decide, by decide, by decide,
   c8_unparsable_time_trkpt_discarded glibExample initGpx [("lat", "1.0")]
     [("time", "bogus")] (by decide) (by decide) (by decide)⟩

/-- Claim C9.  A well-formed `trkpt` whose `lon` and `lat` attributes
parse to numeric values and whose single child is a `time` element with
valid ISO-8601 text contributes exactly one point to the store, carrying
the parsed longitude, latitude and timestamp, with elevation 0 since no
`ele` child is present — for any prior parser state, so for every parsed
document containing such an element. -/
theorem c9_valid_trkpt_appended_once (G : Glib) (s : DtGpx)
    (ls as tS : String) (qlon qlat : ℚ) (tv : GTimeVal)
    (hlon : G.strtod ls = .val qlon) (hlat : G.strtod as = .val qlat)
    (ht : G.timeValFromIso8601 tS = some tv) :
    (runEvents G (trkptElement [("lon", ls), ("lat", as)] [("time", tS)]) s).track
      = s.track ++ [some ⟨.val qlon, .val qlat, .val 0, tv⟩] := by
  simp [trkptElement, childEvents, simpleChild, runEvents, handleEvent,
        _gpx_parser_start_element, _gpx_parser_text, _gpx_parser_end_element,
        scanAttributes, GDouble.ceq_nan, hlon, hlat, ht,
        GPX_PARSER_ELEMENT_TRKPT, GPX_PARSER_ELEMENT_TIME, GPX_PARSER_ELEMENT_ELE]

/-- Witness for C9:
`<trkpt lon="1.0" lat="2.0"><time>2011-06-05T12:30:00Z</time></trkpt>`. -/
theorem c9_valid_trkpt_appended_once_witness :
    glibExample.strtod "1.0" = .val 1 ∧
    glibExample.strtod "2.0" = .val 2 ∧
    glibExample.timeValFromIso8601 "2011-06-05T12:30:00Z" = some ⟨1307277000, 0⟩ ∧
    (runEvents glibExample
        (trkptElement [("lon", "1.0"), ("lat", "2.0")]
          [("time", "2011-06-05T12:30:00Z")]) initGpx).track
      = initGpx.track ++ [some ⟨.val 1, .val 2, .val 0, ⟨1307277000, 0⟩⟩] :=
  ⟨by decide, by decide, by decide,
   c9_valid_trkpt_appended_once glibExample initGpx "1.0" "2.0"
     "2011-06-05T12:30:00Z" 1 2 ⟨1307277000, 0⟩ (by decide) (by decide) (by decide)⟩

/-- Claim C10.  The resolver consults only the whole-second component of
timestamps: for stores equal up to sub-second fractions and queries with
equal whole seconds, locate returns the same boolean and writes the same
longitude and latitude. -/
theorem c10_subsecond_fraction_irrelevant (s1 s2 : List TrackPoint)
    (hs : List.Forall₂ usecEquiv s1 s2) (q1 q2 : GTimeVal)
    (hq : q1.tvSec = q2.tvSec) (lon lat : GDouble) :
    dt_gpx_get_location s1 q1 lon lat = dt_gpx_get_location s2 q2 lon lat := by
  unfold dt_gpx_get_location
  rw [hs.length_eq, hq, scan_respects_usecEquiv q2.tvSec hs]

/-- Witness for C10 on two-point stores whose microsecond fields differ. -/
theorem c10_subsecond_fraction_irrelevant_witness :
    List.Forall₂ usecEquiv
        [⟨.val 1, .val 2, .val 0, ⟨100, 11⟩⟩, ⟨.val 3, .val 4, .val 0, ⟨200, 22⟩⟩]
        [⟨.val 1, .val 2, .val 0, ⟨100, 33⟩⟩, ⟨.val 3, .val 4, .val 0, ⟨200, 44⟩⟩] ∧
    (⟨150, 5⟩ : GTimeVal).tvSec = (⟨150, 6⟩ : GTimeVal).tvSec ∧
    dt_gpx_get_location
        [⟨.val 1, .val 2, .val 0, ⟨100, 11⟩⟩, ⟨.val 3, .val 4, .val 0, ⟨200, 22⟩⟩]
        ⟨150, 5⟩ (.val 0) (.val 0)
      = dt_gpx_get_location
        [⟨.val 1, .val 2, .val 0, ⟨100, 33⟩⟩, ⟨.val 3, .val 4, .val 0, ⟨200, 44⟩⟩]
        ⟨150, 6⟩ (.val 0) (.val 0) := by
  have hf : List.Forall₂ usecEquiv
      [⟨.val 1, .val 2, .val 0, ⟨100, 11⟩⟩, ⟨.val 3, .val 4, .val 0, ⟨200, 22⟩⟩]
      [⟨.val 1, .val 2, .val 0, ⟨100, 33⟩⟩, ⟨.val 3, .val 4, .val 0, ⟨200, 44⟩⟩] :=
    List.Forall₂.cons ⟨rfl, rfl, rfl, rfl⟩
      (List.Forall₂.cons ⟨rfl, rfl, rfl, rfl⟩ List.Forall₂.nil)
  exact ⟨hf, rfl, c10_subsecond_fraction_irrelevant _ _ hf ⟨150, 5⟩ ⟨150, 6⟩ rfl _ _⟩
